import Mathlib

/-
Shallow embedding of the telemetry engine shared by the four dashboard
variants (src/gi1.py, src/gi2-works.py, src/gi3.py, src/gi5.py).

Numeric telemetry values are modelled as rationals (ℚ).  The Python
`random` draws are lifted to explicit parameters: `apply_jitter` takes the
uniform perturbation δ as an argument, and the comms resampling
`random.choice(["Nominal","Nominal","Nominal","Degraded"])` takes the
drawn index (a `Fin 4`).  `round(x, 1)` is modelled as rounding `10 * x`
to the nearest integer and dividing by ten, and Python `int(...)`
truncation toward zero is modelled by `pyInt`.
-/

namespace GalacticOps

/-- Comms link status; the ordinal rank comes from the `comm_order`
dictionary in `status_bad` (src/gi1.py line 106). -/
inductive CommsStatus where
  | Outage
  | Degraded
  | Nominal
deriving DecidableEq

/-- Ordinal rank of a comms status: the dictionary
`{"Outage":0,"Degraded":1,"Nominal":2}` of src/gi1.py line 106. -/
def comm_order : CommsStatus → ℕ
  | CommsStatus.Outage => 0
  | CommsStatus.Degraded => 1
  | CommsStatus.Nominal => 2

/-- One telemetry reading: the `state` dictionary after the jitter and
comms updates (src/gi1.py lines 50-54).  The ship name plays no role in
the engine and is omitted. -/
structure Reading where
  fuel_pct : ℚ
  battery_pct : ℚ
  solar_kw : ℚ
  coolant_c : ℚ
  comms : CommsStatus
deriving DecidableEq

/-- Replace only the comms field of a reading (used to express which
reading fields a history record does or does not determine). -/
def setComms (s : Reading) (c : CommsStatus) : Reading :=
  Reading.mk s.fuel_pct s.battery_pct s.solar_kw s.coolant_c c

/-- The five sidebar thresholds (src/gi1.py lines 22-26). -/
structure Thresholds where
  th_fuel : ℚ
  th_batt : ℚ
  th_solar : ℚ
  th_temp_hi : ℚ
  th_comm : CommsStatus
deriving DecidableEq

/-- An alert message produced by `status_bad`.  Each constructor carries
the values interpolated into the corresponding f-string of
src/gi1.py lines 102-108, so a list of `Alert`s determines the rendered
message list exactly. -/
inductive Alert where
  | fuelLow (fuel_pct th_fuel : ℚ)
  | batteryLow (battery_pct th_batt : ℚ)
  | solarLow (solar_kw th_solar : ℚ)
  | coolantHigh (coolant_c th_temp_hi : ℚ)
  | commsBelow (comms th_comm : CommsStatus)
deriving DecidableEq

/-- The alert evaluator `status_bad` (identical in all four variants:
src/gi1.py lines 100-109, src/gi2-works.py lines 186-195, src/gi3.py
lines 142-151, src/gi5.py lines 216-225): starts from an empty `msgs`
list and appends one message per failing check, in the source order
fuel, battery, solar, coolant, comms. -/
def status_bad (s : Reading) (t : Thresholds) : List Alert :=
  let msgs : List Alert := []
  let msgs := if s.fuel_pct ≤ t.th_fuel
    then msgs ++ [Alert.fuelLow s.fuel_pct t.th_fuel] else msgs
  let msgs := if s.battery_pct ≤ t.th_batt
    then msgs ++ [Alert.batteryLow s.battery_pct t.th_batt] else msgs
  let msgs := if s.solar_kw ≤ t.th_solar
    then msgs ++ [Alert.solarLow s.solar_kw t.th_solar] else msgs
  let msgs := if s.coolant_c ≥ t.th_temp_hi
    then msgs ++ [Alert.coolantHigh s.coolant_c t.th_temp_hi] else msgs
  let msgs := if comm_order s.comms < comm_order t.th_comm
    then msgs ++ [Alert.commsBelow s.comms t.th_comm] else msgs
  msgs

/-- Jitter for one field (src/gi1.py lines 44-47):
`if pct <= 0: return val; span = val*pct/100; return max(0, val + uniform(-span, span))`.
The uniform draw is the explicit parameter `δ`; callers of the theorems
constrain it to `[-span, span]`. -/
def apply_jitter (val pct δ : ℚ) : ℚ :=
  if pct ≤ 0 then val else max 0 (val + δ)

/-- Python `round(x, 1)`: round to one decimal place. -/
def round1 (x : ℚ) : ℚ :=
  ((round (10 * x) : ℤ) : ℚ) / 10

/-- The fixed baseline returned by `initial_state` (src/gi1.py
lines 32-40), minus the ship name. -/
structure Baseline where
  fuel_pct : ℚ
  battery_pct : ℚ
  solar_kw : ℚ
  coolant_c : ℚ
  comms : CommsStatus
deriving DecidableEq

/-- The concrete baseline of `initial_state`: fuel 76, battery 88,
solar 95 kW, coolant 87 °C, comms Nominal. -/
def initial_state : Baseline :=
  Baseline.mk 76 88 95 87 CommsStatus.Nominal

/-- One uniform perturbation per numeric field, lifted from the four
`random.uniform` draws of src/gi1.py lines 50-53. -/
structure Deltas where
  fuel : ℚ
  battery : ℚ
  solar : ℚ
  coolant : ℚ
deriving DecidableEq

/-- The comms resampling draw of src/gi1.py line 54:
`random.choice(["Nominal","Nominal","Nominal","Degraded"])`, indexed by
the position drawn from the four-element list (indices 0-2 Nominal,
index 3 Degraded). -/
def comms_choice (i : Fin 4) : CommsStatus :=
  if i.val = 3 then CommsStatus.Degraded else CommsStatus.Nominal

/-- One generator tick (src/gi1.py lines 50-54): each numeric baseline
field goes through `round(apply_jitter(v, jitter), 1)` and the comms
field is resampled from `comms_choice`, regardless of the jitter
setting. -/
def generate (b : Baseline) (jitter : ℚ) (d : Deltas) (c : Fin 4) : Reading :=
  Reading.mk
    (round1 (apply_jitter b.fuel_pct jitter d.fuel))
    (round1 (apply_jitter b.battery_pct jitter d.battery))
    (round1 (apply_jitter b.solar_kw jitter d.solar))
    (round1 (apply_jitter b.coolant_c jitter d.coolant))
    (comms_choice c)

/-- Derived solar percentage (src/gi2-works.py line 57, src/gi3.py
line 56, src/gi5.py line 57):
`max(0, min(100, (solar_kw / 200.0) * 100.0))`. -/
def solar_pct (solar_kw : ℚ) : ℚ :=
  max 0 (min 100 (solar_kw / 200 * 100))

/-- Derived thermal margin (src/gi2-works.py line 58, src/gi3.py
line 57, src/gi5.py line 58): `max(0, min(100, 200.0 - coolant_c))`. -/
def thermal_margin (coolant_c : ℚ) : ℚ :=
  max 0 (min 100 (200 - coolant_c))

/-- Python `int(q)`: truncation toward zero. -/
def pyInt (q : ℚ) : ℤ :=
  if q < 0 then -(Int.floor (-q)) else Int.floor q

/-- The solar gauge value rendered by the minimal variant, src/gi1.py
line 92: `int(min(100, state["solar_kw"]))`. -/
def gi1_solar_gauge (solar_kw : ℚ) : ℤ :=
  pyInt (min 100 solar_kw)

/-- The thermal-margin gauge value rendered by the minimal variant,
src/gi1.py line 93: `int(min(100, 200 - state["coolant_c"]))`. -/
def gi1_thermal_gauge (coolant_c : ℚ) : ℤ :=
  pyInt (min 100 (200 - coolant_c))

/-- Seconds-within-day rendering of a wall-clock second count: the model
of `datetime.utcnow().strftime("%H:%M:%S")` on src/gi1.py line 79.  The
stored string is fixed-width, so its lexicographic order coincides with
the numeric order of this day-wrapped count; in particular the stored
value wraps back to 0 at midnight UTC. -/
def strf_seconds (w : ℕ) : ℕ :=
  w % 86400

/-- One row of the `ts_hist` history buffer of src/gi1.py lines 78-84
(identically src/gi2-works.py lines 133-139 and src/gi3.py
lines 130-136): the stored timestamp and the four raw numeric fields.
The `t` field holds the stored `strftime("%H:%M:%S")` value read as a
seconds-within-day count (see `strf_seconds`); the tick pipeline below
produces it from the wall clock via `strf_seconds`. -/
structure Gi1Row where
  t : ℕ
  fuelPct : ℚ
  batteryPct : ℚ
  solarKw : ℚ
  coolantC : ℚ
deriving DecidableEq

/-- Build the src/gi1.py history row from the stored timestamp value and
the current reading (lines 78-84). -/
def gi1_row (ts : ℕ) (s : Reading) : Gi1Row :=
  Gi1Row.mk ts s.fuel_pct s.battery_pct s.solar_kw s.coolant_c

/-- One row of the `ts_hist` history buffer of src/gi5.py
lines 115-121: the timestamp, the two raw percent fields, and the two
derived fields rounded to one decimal. -/
structure Gi5Row where
  t : ℕ
  fuelPct : ℚ
  batteryPct : ℚ
  solarPct : ℚ
  thermalMarginPct : ℚ
deriving DecidableEq

/-- Build the src/gi5.py history row from the tick timestamp and the
current reading (lines 115-121). -/
def gi5_row (ts : ℕ) (s : Reading) : Gi5Row :=
  Gi5Row.mk ts s.fuel_pct s.battery_pct
    (round1 (solar_pct s.solar_kw))
    (round1 (thermal_margin s.coolant_c))

/-- One history append: `pd.concat([ts_hist, new_row])` on src/gi1.py
line 85 places the new row after all existing rows; the row's timestamp
is the day-wrapped strftime rendering of the tick's wall-clock second
count `input.1`. -/
def gi1_tick (hist : List Gi1Row) (input : ℕ × Reading) : List Gi1Row :=
  hist ++ [gi1_row (strf_seconds input.1) input.2]

/-- Run N ticks from the empty buffer created on src/gi1.py line 77,
appending one row per tick from the given (timestamp, reading) inputs. -/
def run_ticks (inputs : List (ℕ × Reading)) : List Gi1Row :=
  inputs.foldl gi1_tick []

/-- A concrete three-tick session used to exercise the history-buffer
theorem: monotone timestamps, one reading per tick. -/
def demo_ticks : List (ℕ × Reading) :=
  [(3, Reading.mk 76 88 95 87 CommsStatus.Nominal),
   (5, Reading.mk 20 88 95 130 CommsStatus.Outage),
   (5, Reading.mk 25 88 95 87 CommsStatus.Nominal)]

/-
Helper lemmas shared by several claim theorems.
-/

/-- Unfold `status_bad` into the append of its five independent checks,
in the source order. -/
lemma status_bad_append (s : Reading) (t : Thresholds) :
    status_bad s t =
      (if s.fuel_pct ≤ t.th_fuel then [Alert.fuelLow s.fuel_pct t.th_fuel] else [])
      ++ (if s.battery_pct ≤ t.th_batt then [Alert.batteryLow s.battery_pct t.th_batt] else [])
      ++ (if s.solar_kw ≤ t.th_solar then [Alert.solarLow s.solar_kw t.th_solar] else [])
      ++ (if s.coolant_c ≥ t.th_temp_hi then [Alert.coolantHigh s.coolant_c t.th_temp_hi] else [])
      ++ (if comm_order s.comms < comm_order t.th_comm
            then [Alert.commsBelow s.comms t.th_comm] else []) := by
  unfold status_bad
  split_ifs <;> simp

/-- Rounding to one decimal place moves a rational by at most 1/20. -/
lemma round1_close (x : ℚ) : |round1 x - x| ≤ 1 / 20 := by
  have h := abs_sub_round (10 * x)
  have e : round1 x - x = (((round (10 * x) : ℤ) : ℚ) - 10 * x) / 10 := by
    unfold round1
    ring
  rw [e, abs_div]
  rw [show |(10 : ℚ)| = 10 by norm_num]
  rw [abs_sub_comm]
  linarith

/-- Folding the per-tick append over any starting buffer appends the
rows of the inputs in order. -/
lemma run_ticks_from (inputs : List (ℕ × Reading)) (acc : List Gi1Row) :
    inputs.foldl gi1_tick acc
      = acc ++ inputs.map (fun q => gi1_row (strf_seconds q.1) q.2) := by
  induction inputs generalizing acc with
  | nil => simp
  | cons a l ih => simp [List.foldl_cons, gi1_tick, ih]

/-- Within one UTC day the day-wrapped rendering preserves order. -/
lemma mod_day_mono (a b : ℕ) (h : a ≤ b ∧ a / 86400 = b / 86400) :
    a % 86400 ≤ b % 86400 := by
  omega

/-- A comms alert can only come from the comms check: it carries the
current comms status and the configured minimum, and the rank comparison
must have failed. -/
lemma commsBelow_mem (s : Reading) (t : Thresholds) (x m : CommsStatus)
    (h : Alert.commsBelow x m ∈ status_bad s t) :
    x = s.comms ∧ m = t.th_comm ∧ comm_order s.comms < comm_order t.th_comm := by
  rw [status_bad_append] at h
  split_ifs at h <;> simp_all

/-
Claim theorems.
-/

/-- C1: the alert evaluator returns exactly the messages of the failing
checks among the five rules, in the fixed source order (fuel, battery,
solar, coolant, comms), omitting every passing check; two evaluations of
identical inputs agree; and the result is empty exactly when all five
checks pass. -/
theorem status_bad_fixed_order (s : Reading) (t : Thresholds) :
    status_bad s t = List.filterMap id
        [if s.fuel_pct ≤ t.th_fuel then some (Alert.fuelLow s.fuel_pct t.th_fuel) else none,
         if s.battery_pct ≤ t.th_batt then some (Alert.batteryLow s.battery_pct t.th_batt) else none,
         if s.solar_kw ≤ t.th_solar then some (Alert.solarLow s.solar_kw t.th_solar) else none,
         if s.coolant_c ≥ t.th_temp_hi then some (Alert.coolantHigh s.coolant_c t.th_temp_hi) else none,
         if comm_order s.comms < comm_order t.th_comm
           then some (Alert.commsBelow s.comms t.th_comm) else none]
    ∧ (∀ s2 t2, s2 = s → t2 = t → status_bad s2 t2 = status_bad s t)
    ∧ (status_bad s t = [] ↔
        ¬ s.fuel_pct ≤ t.th_fuel ∧ ¬ s.battery_pct ≤ t.th_batt ∧ ¬ s.solar_kw ≤ t.th_solar
          ∧ ¬ s.coolant_c ≥ t.th_temp_hi ∧ ¬ comm_order s.comms < comm_order t.th_comm) := by
  refine ⟨?_, ?_, ?_⟩
  · rw [status_bad_append]
    split_ifs <;> simp
  · intro s2 t2 hs ht
    rw [hs, ht]
  · rw [status_bad_append]
    split_ifs <;> simp_all

/-- C1 witness: the nominal scenario evaluates to the empty alert list
because all five checks pass. -/
theorem status_bad_fixed_order_witness :
    status_bad (Reading.mk 76 88 95 87 CommsStatus.Nominal)
      (Thresholds.mk 25 30 60 120 CommsStatus.Degraded) = [] :=
  (status_bad_fixed_order (Reading.mk 76 88 95 87 CommsStatus.Nominal)
      (Thresholds.mk 25 30 60 120 CommsStatus.Degraded)).2.2.mpr (by decide)

/-- C2: every check uses an inclusive boundary: a value exactly equal to
a low threshold (fuel, battery, solar) or to the high coolant threshold
triggers the corresponding alert, and a comms status exactly equal to
the configured minimum is accepted (no alert); concretely, fuel 25
against fuel-low 25 yields exactly the fuel-low alert while fuel 25.1
yields no alert at all. -/
theorem status_bad_boundary_inclusive :
    (∀ (s : Reading) (t : Thresholds), s.fuel_pct = t.th_fuel →
      Alert.fuelLow s.fuel_pct t.th_fuel ∈ status_bad s t)
    ∧ (∀ (s : Reading) (t : Thresholds), s.battery_pct = t.th_batt →
      Alert.batteryLow s.battery_pct t.th_batt ∈ status_bad s t)
    ∧ (∀ (s : Reading) (t : Thresholds), s.solar_kw = t.th_solar →
      Alert.solarLow s.solar_kw t.th_solar ∈ status_bad s t)
    ∧ (∀ (s : Reading) (t : Thresholds), s.coolant_c = t.th_temp_hi →
      Alert.coolantHigh s.coolant_c t.th_temp_hi ∈ status_bad s t)
    ∧ (∀ (s : Reading) (t : Thresholds), s.comms = t.th_comm →
      Alert.commsBelow s.comms t.th_comm ∉ status_bad s t)
    ∧ status_bad (Reading.mk 25 88 95 87 CommsStatus.Nominal)
        (Thresholds.mk 25 30 60 120 CommsStatus.Degraded) = [Alert.fuelLow 25 25]
    ∧ status_bad (Reading.mk (251/10) 88 95 87 CommsStatus.Nominal)
        (Thresholds.mk 25 30 60 120 CommsStatus.Degraded) = [] := by
  refine ⟨?_, ?_, ?_, ?_, ?_, by decide, by norm_num [status_bad, comm_order]⟩
  · intro s t h
    simp [status_bad_append, h.le]
  · intro s t h
    simp [status_bad_append, h.le]
  · intro s t h
    simp [status_bad_append, h.le]
  · intro s t h
    simp [status_bad_append, h.ge]
  · intro s t h
    simp [status_bad_append, h]

/-- C2 witness: the fuel check fires on exact equality at 25. -/
theorem status_bad_boundary_inclusive_witness :
    Alert.fuelLow 25 25 ∈ status_bad (Reading.mk 25 88 95 87 CommsStatus.Nominal)
      (Thresholds.mk 25 30 60 120 CommsStatus.Degraded) :=
  status_bad_boundary_inclusive.1 (Reading.mk 25 88 95 87 CommsStatus.Nominal)
    (Thresholds.mk 25 30 60 120 CommsStatus.Degraded) rfl

/-- C3 counterexample: generating from the repository baseline with
jitter 0 and comms draw index 3 returns a reading whose comms field is
Degraded, not the baseline's Nominal — the comms field is resampled on
every tick regardless of the jitter setting (src/gi1.py line 54), so
`generate(b, 0) = b` fails. -/
theorem generate_zero_jitter_resamples_comms :
    (generate initial_state 0 (Deltas.mk 0 0 0 0) 3).comms ≠ initial_state.comms := by
  decide

/-- C3 amended: with jitter 0 the numeric fields carry no perturbation —
each equals its baseline value whenever that value is stable under
rounding to one decimal place (in particular for the repository's integer
baseline) — while the comms field equals the independent resampling draw,
which need not equal the baseline comms. -/
theorem generate_zero_jitter (b : Baseline) (d : Deltas) (c : Fin 4)
    (h1 : round1 b.fuel_pct = b.fuel_pct) (h2 : round1 b.battery_pct = b.battery_pct)
    (h3 : round1 b.solar_kw = b.solar_kw) (h4 : round1 b.coolant_c = b.coolant_c) :
    (generate b 0 d c).fuel_pct = b.fuel_pct
    ∧ (generate b 0 d c).battery_pct = b.battery_pct
    ∧ (generate b 0 d c).solar_kw = b.solar_kw
    ∧ (generate b 0 d c).coolant_c = b.coolant_c
    ∧ (generate b 0 d c).comms = comms_choice c := by
  simp [generate, apply_jitter, h1, h2, h3, h4]

/-- C3 witness: at the repository baseline with jitter 0 and nonzero
perturbation draws, every numeric field comes back exactly. -/
theorem generate_zero_jitter_witness :
    (generate initial_state 0 (Deltas.mk 5 (-3) 2 1) 0).fuel_pct = initial_state.fuel_pct
    ∧ (generate initial_state 0 (Deltas.mk 5 (-3) 2 1) 0).battery_pct = initial_state.battery_pct
    ∧ (generate initial_state 0 (Deltas.mk 5 (-3) 2 1) 0).solar_kw = initial_state.solar_kw
    ∧ (generate initial_state 0 (Deltas.mk 5 (-3) 2 1) 0).coolant_c = initial_state.coolant_c
    ∧ (generate initial_state 0 (Deltas.mk 5 (-3) 2 1) 0).comms = comms_choice 0 :=
  generate_zero_jitter initial_state (Deltas.mk 5 (-3) 2 1) 0
    (by norm_num [initial_state, round1]) (by norm_num [initial_state, round1])
    (by norm_num [initial_state, round1]) (by norm_num [initial_state, round1])

/-- C4 counterexample: at baseline value v = 1/25, jitter 100 and
perturbation δ = span = 1/25 (all within the claim's constraints), the
generated field value round1(max(0, v + δ)) = 1/10 exceeds the claimed
upper bound v·(1 + 100/100) = 2/25: rounding to one decimal place can
leave the claimed interval. -/
theorem jitter_bound_rounding_cex :
    ((0 : ℚ) ≤ 1/25 ∧ (0 : ℚ) ≤ 100 ∧ (100 : ℚ) ≤ 100
      ∧ -((1/25 : ℚ) * 100 / 100) ≤ 1/25 ∧ (1/25 : ℚ) ≤ (1/25 : ℚ) * 100 / 100)
    ∧ ¬ (max 0 ((1/25 : ℚ) * (1 - 100/100)) ≤ round1 (apply_jitter (1/25) 100 (1/25))
      ∧ round1 (apply_jitter (1/25) 100 (1/25)) ≤ (1/25 : ℚ) * (1 + 100/100)) := by
  norm_num [round1, apply_jitter, max_def, round_eq]

/-- C4 amended: for v ≥ 0, jitter_pct in [0,100] and δ in [−span, span],
the pre-rounding value `apply_jitter v p δ` (that is, max(0, v + δ), or v
itself when the jitter is 0) lies within
[max(0, v·(1−p/100)), v·(1+p/100)], and the generated field value —
that value rounded to one decimal place — lies within 1/20 of it. -/
theorem jitter_bound (v p δ : ℚ) (hv : 0 ≤ v) (hp0 : 0 ≤ p) (hp1 : p ≤ 100)
    (hd1 : -(v * p / 100) ≤ δ) (hd2 : δ ≤ v * p / 100) :
    max 0 (v * (1 - p / 100)) ≤ apply_jitter v p δ
    ∧ apply_jitter v p δ ≤ v * (1 + p / 100)
    ∧ |round1 (apply_jitter v p δ) - apply_jitter v p δ| ≤ 1 / 20 := by
  refine ⟨?_, ?_, round1_close _⟩
  · unfold apply_jitter
    split_ifs with h
    · have hp : p = 0 := le_antisymm h hp0
      subst hp
      simp [max_eq_right hv]
    · have hlow : v * (1 - p / 100) ≤ v + δ := by nlinarith
      exact max_le_max le_rfl hlow
  · unfold apply_jitter
    split_ifs with h
    · have hp : p = 0 := le_antisymm h hp0
      subst hp
      simp
    · have hub : v + δ ≤ v * (1 + p / 100) := by nlinarith
      have hnn : (0 : ℚ) ≤ v * (1 + p / 100) := by nlinarith
      exact max_le hnn hub

/-- C4 witness: the bound instantiated at the fuel baseline 95 with
jitter 2 and perturbation 1. -/
theorem jitter_bound_witness :
    max 0 ((95 : ℚ) * (1 - 2 / 100)) ≤ apply_jitter 95 2 1
    ∧ apply_jitter 95 2 1 ≤ (95 : ℚ) * (1 + 2 / 100)
    ∧ |round1 (apply_jitter 95 2 1) - apply_jitter 95 2 1| ≤ 1 / 20 :=
  jitter_bound 95 2 1 (by norm_num) (by norm_num) (by norm_num) (by norm_num) (by norm_num)

/-- C5 counterexample: the minimal variant renders its solar gauge as
int(min(100, solar_kw)) (src/gi1.py line 92), which at solar_kw = 95
gives 95, not the claimed clamp(solar_kw/200·100, 0, 100) = 47.5; and
its thermal gauge int(min(100, 200 − coolant_c)) (line 93) has no lower
clamp and is negative at coolant_c = 250. -/
theorem gi1_gauge_formula_cex :
    ((gi1_solar_gauge 95 : ℚ) ≠ solar_pct 95) ∧ gi1_thermal_gauge 250 < 0 := by
  norm_num [gi1_solar_gauge, gi1_thermal_gauge, pyInt, solar_pct, min_def, max_def]

/-- C5 amended: in the variants that compute the derived metrics
(src/gi2-works.py, src/gi3.py, src/gi5.py), solar_pct and thermal_margin
are the stated clamp formulas, both lie in [0,100] for every raw input,
and on the nominal input ranges they agree with the unclamped formulas;
the minimal variant src/gi1.py instead renders min(100, solar_kw) and
min(100, 200 − coolant_c) without the lower clamp. -/
theorem derived_metrics_clamp (k c : ℚ) :
    0 ≤ solar_pct k ∧ solar_pct k ≤ 100
    ∧ 0 ≤ thermal_margin c ∧ thermal_margin c ≤ 100
    ∧ (0 ≤ k → k ≤ 200 → solar_pct k = k / 2)
    ∧ (100 ≤ c → c ≤ 200 → thermal_margin c = 200 - c) := by
  refine ⟨le_max_left _ _, ?_, le_max_left _ _, ?_, ?_, ?_⟩
  · exact max_le (by norm_num) (min_le_left _ _)
  · exact max_le (by norm_num) (min_le_left _ _)
  · intro h0 h200
    have e : k / 200 * 100 = k / 2 := by ring
    rw [solar_pct, e, min_eq_right (by linarith), max_eq_right (by linarith)]
  · intro h100 h200
    rw [thermal_margin, min_eq_right (by linarith), max_eq_right (by linarith)]

/-- C5 witness: the derived metrics at the baseline raw values 95 kW and
130 °C. -/
theorem derived_metrics_clamp_witness :
    solar_pct 95 = 95 / 2 ∧ thermal_margin 130 = 200 - 130 :=
  ⟨(derived_metrics_clamp 95 130).2.2.2.2.1 (by norm_num) (by norm_num),
   (derived_metrics_clamp 95 130).2.2.2.2.2 (by norm_num) (by norm_num)⟩

/-- C6: the multi-alert scenario — fuel 20, battery 88, solar 95 kW,
coolant 130 °C, comms Outage against thresholds 25/30/60/120/Degraded —
returns exactly the three alerts fuel-low, coolant-high,
comms-below-minimum, in that order. -/
theorem multi_alert_scenario :
    status_bad (Reading.mk 20 88 95 130 CommsStatus.Outage)
      (Thresholds.mk 25 30 60 120 CommsStatus.Degraded) =
    [Alert.fuelLow 20 25, Alert.coolantHigh 130 120,
     Alert.commsBelow CommsStatus.Outage CommsStatus.Degraded] := by
  decide

/-- C7 counterexample: a two-tick session with non-decreasing wall-clock
times that crosses midnight UTC (seconds 86399 and 86401) stores the
timestamp column [86399, 1] — the day-wrapped `strftime("%H:%M:%S")`
rendering wraps back to 0 at midnight — so the snapshot is not sorted
non-decreasing by the stored timestamp field. -/
theorem history_midnight_wrap_cex :
    List.Sorted (· ≤ ·)
      (([(86399, Reading.mk 76 88 95 87 CommsStatus.Nominal),
         (86401, Reading.mk 76 88 95 87 CommsStatus.Nominal)]
        : List (ℕ × Reading)).map Prod.fst)
    ∧ ¬ List.Sorted (· ≤ ·)
      ((run_ticks [(86399, Reading.mk 76 88 95 87 CommsStatus.Nominal),
         (86401, Reading.mk 76 88 95 87 CommsStatus.Nominal)]).map Gi1Row.t) := by
  decide

/-- C7 amended: starting from the empty buffer, after N ticks with one
record appended per tick the history holds exactly N records in
insertion order, each stamped with the day-wrapped rendering of its
tick's wall-clock time; the stored timestamp column is sorted
non-decreasing provided the tick wall-clock times are non-decreasing AND
all fall within the same UTC day — a session crossing midnight stores a
non-sorted column. -/
theorem history_append_ordered (inputs : List (ℕ × Reading))
    (hmono : List.Sorted (· ≤ ·) (inputs.map Prod.fst))
    (hday : List.Pairwise (fun a b => a / 86400 = b / 86400) (inputs.map Prod.fst)) :
    (run_ticks inputs).length = inputs.length
    ∧ run_ticks inputs = inputs.map (fun q => gi1_row (strf_seconds q.1) q.2)
    ∧ List.Sorted (· ≤ ·) ((run_ticks inputs).map Gi1Row.t) := by
  have he : run_ticks inputs = inputs.map (fun q => gi1_row (strf_seconds q.1) q.2) := by
    unfold run_ticks
    rw [run_ticks_from]
    simp
  refine ⟨by rw [he]; simp, he, ?_⟩
  rw [he, List.map_map]
  have hco : (Gi1Row.t ∘ fun q : ℕ × Reading => gi1_row (strf_seconds q.1) q.2)
      = (fun w => w % 86400) ∘ Prod.fst := by
    funext q
    rfl
  rw [hco, ← List.map_map]
  exact List.Pairwise.map _ (fun a b hab => mod_day_mono a b hab)
    (List.Pairwise.and hmono hday)

/-- C7 witness: a concrete three-tick session with monotone timestamps
within one UTC day. -/
theorem history_append_ordered_witness :
    (run_ticks demo_ticks).length = demo_ticks.length
    ∧ run_ticks demo_ticks = demo_ticks.map (fun q => gi1_row (strf_seconds q.1) q.2)
    ∧ List.Sorted (· ≤ ·) ((run_ticks demo_ticks).map Gi1Row.t) :=
  history_append_ordered demo_ticks (by decide) (by decide)

/-- C8 counterexample: two readings that differ only in the comms field
produce identical history rows in both the gi1 and the gi5 buffer — the
comms field (and in gi1 the derived fields, in gi5 the raw solar/coolant
fields) is not part of any stored record. -/
theorem history_row_missing_comms :
    CommsStatus.Nominal ≠ CommsStatus.Outage
    ∧ gi1_row 7 (Reading.mk 76 88 95 87 CommsStatus.Nominal)
        = gi1_row 7 (Reading.mk 76 88 95 87 CommsStatus.Outage)
    ∧ gi5_row 7 (Reading.mk 76 88 95 87 CommsStatus.Nominal)
        = gi5_row 7 (Reading.mk 76 88 95 87 CommsStatus.Outage) :=
  ⟨by decide, rfl, rfl⟩

/-- C8 amended: a gi1/gi2/gi3 history row stores exactly the timestamp
and the four raw numeric fields (it determines them and nothing else —
in particular it is unchanged under any change of the comms field), and
the gi5 row likewise ignores comms, storing the timestamp, the two raw
percent fields and the two rounded derived fields instead. -/
theorem history_row_fields :
    (∀ (a b : ℕ × Reading), gi1_row a.1 a.2 = gi1_row b.1 b.2 →
      a.1 = b.1 ∧ a.2.fuel_pct = b.2.fuel_pct ∧ a.2.battery_pct = b.2.battery_pct
        ∧ a.2.solar_kw = b.2.solar_kw ∧ a.2.coolant_c = b.2.coolant_c)
    ∧ (∀ (ts : ℕ) (s : Reading) (c : CommsStatus), gi1_row ts (setComms s c) = gi1_row ts s)
    ∧ (∀ (ts : ℕ) (s : Reading) (c : CommsStatus), gi5_row ts (setComms s c) = gi5_row ts s) := by
  refine ⟨?_, fun ts s c => rfl, fun ts s c => rfl⟩
  intro a b h
  simpa [gi1_row, Gi1Row.mk.injEq] using h

/-- C8 witness: equal concrete rows force equal stored fields. -/
theorem history_row_fields_witness :
    (7 : ℕ) = 7 ∧ (76 : ℚ) = 76 ∧ (88 : ℚ) = 88 ∧ (95 : ℚ) = 95 ∧ (87 : ℚ) = 87 :=
  history_row_fields.1 (7, Reading.mk 76 88 95 87 CommsStatus.Nominal)
    (7, Reading.mk 76 88 95 87 CommsStatus.Outage) rfl

/-- C9: `apply_jitter` with a non-positive jitter percentage — including
negative, out-of-contract values — returns the value unchanged and
ignores the random draw entirely (src/gi1.py line 45). -/
theorem apply_jitter_nonpositive (v p : ℚ) (hp : p ≤ 0) (d1 d2 : ℚ) :
    apply_jitter v p d1 = v ∧ apply_jitter v p d1 = apply_jitter v p d2 := by
  simp [apply_jitter, hp]

/-- C9 witness: jitter −3 leaves the value 5 untouched for any draw. -/
theorem apply_jitter_nonpositive_witness :
    apply_jitter 5 (-3) 7 = 5 ∧ apply_jitter 5 (-3) 7 = apply_jitter 5 (-3) 9 :=
  apply_jitter_nonpositive 5 (-3) (by norm_num) 7 9

/-- C10: every generated reading has comms Nominal or Degraded — never
Outage, since the choice list of src/gi1.py line 54 contains no Outage
entry — and consequently a comms-below-minimum alert on a generated
reading forces the configured minimum to be Nominal. -/
theorem generated_comms_never_outage (b : Baseline) (jp : ℚ) (d : Deltas) (c : Fin 4)
    (t : Thresholds) :
    (generate b jp d c).comms ≠ CommsStatus.Outage
    ∧ (∀ x m, Alert.commsBelow x m ∈ status_bad (generate b jp d c) t →
        t.th_comm = CommsStatus.Nominal) := by
  have hc : (generate b jp d c).comms = comms_choice c := rfl
  constructor
  · rw [hc]
    unfold comms_choice
    split <;> simp
  · intro x m hm
    have h := commsBelow_mem _ _ _ _ hm
    have hrank := h.2.2
    rw [hc] at hrank
    revert hrank
    unfold comms_choice
    cases t.th_comm <;> split <;> simp [comm_order]

/-- C10 witness: a generated Degraded reading against minimum Nominal
does raise the comms alert, and the minimum is indeed Nominal. -/
theorem generated_comms_never_outage_witness :
    (generate initial_state 0 (Deltas.mk 0 0 0 0) 3).comms ≠ CommsStatus.Outage
    ∧ Thresholds.th_comm (Thresholds.mk 25 30 60 120 CommsStatus.Nominal)
        = CommsStatus.Nominal := by
  have hr : generate initial_state 0 (Deltas.mk 0 0 0 0) 3
      = Reading.mk 76 88 95 87 CommsStatus.Degraded := by
    have hcm : comms_choice 3 = CommsStatus.Degraded := rfl
    unfold generate initial_state
    rw [hcm]
    norm_num [apply_jitter, round1, Reading.mk.injEq]
  have hm : Alert.commsBelow CommsStatus.Degraded CommsStatus.Nominal ∈
      status_bad (generate initial_state 0 (Deltas.mk 0 0 0 0) 3)
        (Thresholds.mk 25 30 60 120 CommsStatus.Nominal) := by
    rw [hr]
    decide
  exact ⟨(generated_comms_never_outage initial_state 0 (Deltas.mk 0 0 0 0) 3
      (Thresholds.mk 25 30 60 120 CommsStatus.Nominal)).1,
    (generated_comms_never_outage initial_state 0 (Deltas.mk 0 0 0 0) 3
      (Thresholds.mk 25 30 60 120 CommsStatus.Nominal)).2
      CommsStatus.Degraded CommsStatus.Nominal hm⟩

end GalacticOps
